import Mathlib

/-!
Verification of the query-execution core of the gocb v2 client
(prepared-statement cache + retry loop + streaming result cursor),
shallowly embedded from `src/query.go`.

Modelling conventions:
* Go `map[string]interface{}` values are modelled as `OptsMap := String → Option GoVal`;
  `mapInsert`/`mapDelete` model in-place map writes (the functional map is threaded
  wherever the source mutates the map in place).
* Raw JSON rows (`json.RawMessage`) are modelled as `Row`, classified by how they
  decode: `Row.val n` decodes into the caller's target as the opaque value `n`,
  `Row.bad` fails to decode, `Row.prep name encodedPlan` decodes as `n1qlPrepData`.
* `time.Duration` is `Int` (nanoseconds).  Of Go's `time.ParseDuration` grammar we
  model the `"<int>ns"` fragment (enough to express present / absent / non-positive /
  too-large / malformed overrides); `durToString` models `Duration.String()` by
  rendering in that same fragment.
* Go panics are a distinguished outcome (`Outcome.goPanic`), since several claims
  turn on whether a path panics.
* The external query provider is modelled as a script of responses consumed in
  order (`World.responses`); every dispatched request body is recorded in
  `World.sent` so that theorems can count round trips and inspect wire payloads.
* The derived cancellation context is abstracted as a predicate `expired : Nat → Bool`
  giving, for each top-of-loop check, whether `ctx.Done()` is already closed.
-/

namespace Gocb

/-- Structured server error (`n1qlError` in src/query.go): numeric code + message. -/
structure N1qlError where
  code : Nat
  message : String
deriving DecidableEq

/-- Model of `(*n1qlError).Error()`: `fmt.Sprintf("[%d] %s", e.Code, e.Message)`. -/
def n1qlError_Error (e : N1qlError) : String :=
  "[" ++ toString e.code ++ "] " ++ e.message

/-- Model of `(*n1qlMultiError).Error()`: formats `(*e)[0]`.  The source indexes
position 0 directly (it would panic on an empty list); values of this type are
only ever built from a non-empty error list, so we read the head with a default. -/
def n1qlMultiError_Error (es : List N1qlError) : String :=
  n1qlError_Error ((es.get? 0).getD { code := 0, message := "" })

/-- Model of `(*n1qlMultiError).Code()`: `(*e)[0].Code`. -/
def n1qlMultiError_Code (es : List N1qlError) : Nat :=
  ((es.get? 0).getD { code := 0, message := "" }).code

/-- Raw result row (`json.RawMessage`), classified by its decoding behaviour. -/
inductive Row where
  | val (n : Nat)
  | bad
  | prep (name : String) (encodedPlan : String)
deriving DecidableEq

/-- Decoded query metrics (`QueryResultMetrics` in src/query.go); durations in ns. -/
structure QueryResultMetrics where
  ElapsedTime : Int
  ExecutionTime : Int
  ResultCount : Nat
  ResultSize : Nat
  MutationCount : Nat
  SortCount : Nat
  ErrorCount : Nat
  WarningCount : Nat
deriving DecidableEq

/-- Wire-level metrics (`n1qlResponseMetrics`): durations still human-readable strings. -/
structure N1qlResponseMetrics where
  elapsedTime : String
  executionTime : String
  resultCount : Nat
  resultSize : Nat
  mutationCount : Nat
  sortCount : Nat
  errorCount : Nat
  warningCount : Nat
deriving DecidableEq

/-- Decoded wire response (`n1qlResponse` in src/query.go). -/
structure N1qlResponse where
  requestId : String
  clientContextId : String
  results : List Row
  errors : List N1qlError
  status : String
  metrics : N1qlResponseMetrics
deriving DecidableEq

/-- Result cursor state (`n1qlResults` in src/query.go). -/
structure N1qlResults where
  closed : Bool
  index : Int
  rows : List Row
  err : Option String
  requestId : String
  clientContextId : String
  metrics : QueryResultMetrics
  sourceAddr : String
deriving DecidableEq

/-- Model of `(*n1qlResults).NextBytes()`.  Returns the updated state and the row
(`none` models Go's `nil` return).  `r.rows[r.index]` after `r.index++` is read
with a default; the in-bounds guard of the source makes the default unreachable
for states arising from a fresh cursor. -/
def NextBytes (r : N1qlResults) : N1qlResults × Option Row :=
  if r.err.isSome then (r, none)
  else if (r.rows.length : Int) ≤ r.index + 1 then ({ r with closed := true }, none)
  else ({ r with index := r.index + 1 },
        some ((r.rows.get? (r.index + 1).toNat).getD Row.bad))

/-- Model of `(*n1qlResults).Next(valuePtr)`.  `dec` models `json.Unmarshal` into the
caller's target shape; the `Option α` component models the write through `valuePtr`
(`none` = target untouched). -/
def Next {α : Type} (dec : Row → Option α) (r : N1qlResults) :
    N1qlResults × Bool × Option α :=
  if r.err.isSome then (r, false, none)
  else
    let nb := NextBytes r
    match nb.2 with
    | none => (nb.1, false, none)
    | some row =>
      match dec row with
      | none => ({ nb.1 with err := some "unmarshal error" }, false, none)
      | some v => (nb.1, true, some v)

/-- Model of `(*n1qlResults).Close()`: marks closed, returns the retained error. -/
def Close (r : N1qlResults) : N1qlResults × Option String :=
  ({ r with closed := true }, r.err)

/-- Model of `(*n1qlResults).One(valuePtr)`: advance once, then close; the retained
error is surfaced only when the advance failed, and any error noticed after a
successful advance is swallowed (source returns nil in both tail branches). -/
def One {α : Type} (dec : Row → Option α) (r : N1qlResults) :
    N1qlResults × Option String × Option α :=
  let nres := Next dec r
  if nres.2.1 = false then
    let c1 := Close nres.1
    match c1.2 with
    | some e => (c1.1, some e, nres.2.2)
    | none =>
      let c2 := Close c1.1
      (c2.1, none, nres.2.2)
  else
    let c := Close nres.1
    (c.1, none, nres.2.2)

/-- Panic message of the metadata accessors in src/query.go. -/
def metaPanicMsg : String := "Result must be closed before accessing meta-data"

/-- Errors produced by the embedded query pipeline. -/
inductive QErr where
  | ctxErr
  | dispatchErr (n : Nat)
  | decodeErr
  | parseDurationErr
  | multiErr (es : List N1qlError)
  | unmarshalErr (s : String)
deriving DecidableEq

/-- Outcome of a Go call that can return a value, return an error, or panic. -/
inductive Outcome (α : Type) where
  | ok (a : α)
  | err (e : QErr)
  | goPanic (msg : String)
deriving DecidableEq

/-- Model of `(*n1qlResults).RequestId()`: panics unless the cursor is closed. -/
def RequestId (r : N1qlResults) : Outcome String :=
  if r.closed = false then .goPanic metaPanicMsg else .ok r.requestId

/-- Model of `(*n1qlResults).ClientContextId()`: panics unless the cursor is closed. -/
def ClientContextId (r : N1qlResults) : Outcome String :=
  if r.closed = false then .goPanic metaPanicMsg else .ok r.clientContextId

/-- Model of `(*n1qlResults).Metrics()`: panics unless the cursor is closed. -/
def Metrics (r : N1qlResults) : Outcome QueryResultMetrics :=
  if r.closed = false then .goPanic metaPanicMsg else .ok r.metrics

/-- Repeatedly call `NextBytes` until it returns `nil`, collecting the rows —
models a caller fully consuming the row sequence.  Fuel-bounded. -/
def drain : Nat → N1qlResults → N1qlResults × List Row
  | 0, r => (r, [])
  | fuel + 1, r =>
    let nb := NextBytes r
    match nb.2 with
    | none => (nb.1, [])
    | some row =>
      let rest := drain fuel nb.1
      (rest.1, row :: rest.2)

/-- Parse a digit run into a number; `none` on a non-digit or an empty run. -/
def parseDigitsAux : List Char → Nat → Option Nat
  | [], acc => some acc
  | c :: cs, acc =>
    if c.isDigit then parseDigitsAux cs (acc * 10 + (c.toNat - 48)) else none

/-- Parse a non-empty digit run. -/
def parseDigits : List Char → Option Nat
  | [] => none
  | c :: cs => parseDigitsAux (c :: cs) 0

/-- Model of the `"<int>ns"` fragment of Go's `time.ParseDuration` grammar
(the fragment suffices to express every override shape the claims need:
positive, zero, negative, and malformed strings). -/
def parseDuration (s : String) : Option Int :=
  match s.data.reverse with
  | 's' :: 'n' :: restRev =>
    match restRev.reverse with
    | '-' :: ds => (parseDigits ds).map (fun n => -(n : Int))
    | ds => (parseDigits ds).map (fun n => (n : Int))
  | _ => none

/-- Model of `time.Duration.String()`, rendering in the same `ns` fragment. -/
def durToString (d : Int) : String := toString d ++ "ns"

/-- Modelled from the spec: `isRetryableError` is declared outside src/ (only its
calls are in src/query.go).  Per §7 a server error list is retryable exactly for
the plan-invalidation / overload codes — the source comment at
src/query.go:318-319 names 4050, 4070 and 5000 — and for rate limiting (429);
cancellation, decode failures and the remaining codes are terminal. -/
def isRetryableError : QErr → Bool
  | .multiErr (e :: _) =>
    e.code = 4050 || e.code = 4070 || e.code = 5000 || e.code = 429
  | _ => false

/-- Dynamic (`interface` typed) values held in a Go `map[string]interface{}`.
`vNilSlice` is a nil `[]interface{}` stored in the map (marshals as JSON null);
`vOpaque` is an arbitrary caller-supplied parameter value. -/
inductive GoVal where
  | vStr (s : String)
  | vList (xs : List Nat)
  | vNilSlice
  | vOpaque (n : Nat)
deriving DecidableEq

/-- A Go `map[string]interface{}`, as a lookup function. -/
abbrev OptsMap : Type := String → Option GoVal

/-- Map write `m[k] = v`. -/
def mapInsert (m : OptsMap) (k : String) (v : GoVal) : OptsMap :=
  fun k' => if k' = k then some v else m k'

/-- Map delete `delete(m, k)`. -/
def mapDelete (m : OptsMap) (k : String) : OptsMap :=
  fun k' => if k' = k then none else m k'

/-- Copy every binding of an association list into the map (`for k, v := range ...`;
Go map keys are unique, so the iteration order is irrelevant and we fix one). -/
def insertAll (m : OptsMap) (kvs : List (String × GoVal)) : OptsMap :=
  kvs.foldl (fun acc kv => mapInsert acc kv.1 kv.2) m

/-- Modelled from the spec: the `QueryParameters` struct is declared outside src/
(only src/query.go's reads of it are visible).  Per §3 it carries the caller's
positional parameters XOR named parameters; `none` models a nil Go field. -/
structure QueryParameters where
  positionalParams : Option (List Nat)
  namedParams : Option (List (String × Nat))

/-- Modelled from the spec: the `QueryOptions` struct is declared outside src/.
It carries the free-form execution-options map (§3) plus the fields that
src/query.go reads from it: `positionalParams`, `namedParams`, and the ad-hoc
flag (§6: `ad-hoc: bool (skip plan cache entirely)`). -/
structure QueryOptions where
  options : List (String × GoVal)
  positionalParams : Option (List Nat)
  namedParams : Option (List (String × Nat))
  adHoc : Bool

/-- Model of `createQueryOpts` (src/query.go:185-200).  Note the source gates the
parameter styles on `params.*` but reads the values from `opts.*`. -/
def createQueryOpts (statement : String) (params : QueryParameters)
    (opts : QueryOptions) : OptsMap :=
  let execOpts : OptsMap := fun _ => none
  let execOpts1 := mapInsert execOpts "statement" (.vStr statement)
  let execOpts2 := insertAll execOpts1 opts.options
  if params.positionalParams.isSome then
    mapInsert execOpts2 "args"
      (match opts.positionalParams with
       | some xs => .vList xs
       | none => .vNilSlice)
  else if params.namedParams.isSome then
    insertAll execOpts2
      ((opts.namedParams.getD []).map (fun kv => ("$" ++ kv.1, GoVal.vOpaque kv.2)))
  else
    execOpts2

/-- Cached prepared plan (`n1qlCache` in src/query.go). -/
structure n1qlCache where
  name : String
  encodedPlan : String
deriving DecidableEq

/-- Prepared-plan payload (`n1qlPrepData` in src/query.go). -/
structure n1qlPrepData where
  encodedPlan : String
  name : String
deriving DecidableEq

/-- How a raw row unmarshals into `n1qlPrepData` (only `Row.prep` bytes do). -/
def decPrep : Row → Option n1qlPrepData
  | .prep n e => some { encodedPlan := e, name := n }
  | _ => none

/-- HTTP response handed back by the external query provider: status code,
source endpoint (already reduced to its host part, standing for
`url.Parse(resp.Endpoint).Host`), and the body as its decode result
(`none` models a body `json.Decoder` fails on). -/
structure HttpResponse where
  statusCode : Int
  endpoint : String
  body : Option N1qlResponse
deriving DecidableEq

/-- One scripted provider behaviour: a transport error or a response. -/
abbrev ProviderResp : Type := Except Nat HttpResponse

/-- Shared mutable state threaded through one call: the plan cache
(`c.queryCache`, lock-protected in the source), the script of provider
responses still to come, and the trace of dispatched request bodies. -/
structure World where
  cache : String → Option n1qlCache
  responses : List ProviderResp
  sent : List OptsMap

/-- Take the next scripted provider response; an exhausted script behaves as a
transport failure. -/
def popResponse (w : World) : World × ProviderResp :=
  match w.responses with
  | [] => (w, .error 0)
  | r :: rest => ({ w with responses := rest }, r)

/-- Build the success cursor from a decoded response (src/query.go:465-481):
fresh cursor at index -1 with best-effort-parsed metrics. -/
def mkMetrics (m : N1qlResponseMetrics) : QueryResultMetrics where
  ElapsedTime := (parseDuration m.elapsedTime).getD 0
  ExecutionTime := (parseDuration m.executionTime).getD 0
  ResultCount := m.resultCount
  ResultSize := m.resultSize
  MutationCount := m.mutationCount
  SortCount := m.sortCount
  ErrorCount := m.errorCount
  WarningCount := m.warningCount

/-- Fresh result cursor as built by `executeN1qlQuery`'s success return. -/
def mkN1qlResults (endpoint : String) (nr : N1qlResponse) : N1qlResults where
  closed := false
  index := -1
  rows := nr.results
  err := none
  requestId := nr.requestId
  clientContextId := nr.clientContextId
  metrics := mkMetrics nr.metrics
  sourceAddr := endpoint

/-- Classify one provider response the way `executeN1qlQuery`
(src/query.go:388-482) does after dispatch: transport error, body decode
failure, non-empty structured error list (aggregated as `n1qlMultiError`), or —
the non-200 status branch being commented out in the source — a success cursor. -/
def respOutcome (r : ProviderResp) : Outcome N1qlResults :=
  match r with
  | .error n => .err (.dispatchErr n)
  | .ok resp =>
    match resp.body with
    | none => .err .decodeErr
    | some nr =>
      if 0 < nr.errors.length then .err (.multiErr nr.errors)
      else
        -- src/query.go:440-445: `if resp.StatusCode != 200` has an empty body
        -- (the error return is commented out), so a non-200 response with no
        -- structured errors still yields a success cursor.
        .ok (mkN1qlResults resp.endpoint nr)

/-- Model of `(*Cluster).executeN1qlQuery`: marshal the options map as the body,
dispatch through the provider, decode and classify. -/
def executeN1qlQuery (w : World) (opts : OptsMap) : World × Outcome N1qlResults :=
  let pr := popResponse { w with sent := w.sent ++ [opts] }
  (pr.1, respOutcome pr.2)

/-- Model of `(*Cluster).prepareN1qlQuery` (src/query.go:353-377).  The source
copies `opts` into `prepOpts` and rewrites the statement to `"PREPARE " + stmt`
there, but then dispatches `opts` (line 362), so `prepOpts` is built and
discarded.  When the options map holds no string under "statement", the bare
type assertion `opts["statement"].(string)` panics. -/
def prepareN1qlQuery (w : World) (opts : OptsMap) : World × Outcome n1qlCache :=
  match opts "statement" with
  | some (.vStr s) =>
    let prepOpts := mapInsert opts "statement" (.vStr ("PREPARE " ++ s))
    let ex := executeN1qlQuery w opts
    match ex.2 with
    | .goPanic m => (ex.1, .goPanic m)
    | .err e => (ex.1, .err e)
    | .ok prepRes =>
      let one := One decPrep prepRes
      match one.2.1 with
      | some e => (ex.1, .err (.unmarshalErr e))
      | none =>
        let preped := (one.2.2).getD { encodedPlan := "", name := "" }
        (ex.1, .ok { name := preped.name, encodedPlan := preped.encodedPlan })
  | _ => (w, .goPanic "interface conversion: nil is not string")

/-- Fall-through tail of `doPreparedN1qlQuery` (src/query.go:325-350): prepare,
overwrite the cache entry for `stmtStr`, substitute the fresh plan into the
options, and execute. -/
def prepareAndExecute (w : World) (queryOpts : OptsMap) (stmtStr : String) :
    World × OptsMap × Outcome N1qlResults :=
  let pr := prepareN1qlQuery w queryOpts
  match pr.2 with
  | .goPanic m => (pr.1, queryOpts, .goPanic m)
  | .err e => (pr.1, queryOpts, .err e)
  | .ok cachedStmt =>
    let w2 : World :=
      { pr.1 with cache := fun t => if t = stmtStr then some cachedStmt else pr.1.cache t }
    let qo1 := mapDelete queryOpts "statement"
    let qo2 := mapInsert qo1 "prepared" (.vStr cachedStmt.name)
    let qo3 := mapInsert qo2 "encoded_plan" (.vStr cachedStmt.encodedPlan)
    let ex := executeN1qlQuery w2 qo3
    (ex.1, qo3, ex.2)

/-- Model of `(*Cluster).doPreparedN1qlQuery` (src/query.go:290-351).  On a cache
hit the raw statement is deleted from the options map and the cached plan
substituted; a retryable failure then falls through to re-prepare (passing the
already-mutated map).  The comma-ok assertion on "statement" never panics; when
it fails the commented-out error return does nothing and the zero value is used. -/
def doPreparedN1qlQuery (w : World) (queryOpts : OptsMap) :
    World × OptsMap × Outcome N1qlResults :=
  let stmtStr :=
    match queryOpts "statement" with
    | some (.vStr s) => s
    | _ => ""
  match w.cache stmtStr with
  | some cachedStmt =>
    let qo1 := mapDelete queryOpts "statement"
    let qo2 := mapInsert qo1 "prepared" (.vStr cachedStmt.name)
    let qo3 := mapInsert qo2 "encoded_plan" (.vStr cachedStmt.encodedPlan)
    let ex := executeN1qlQuery w qo3
    match ex.2 with
    | .ok res => (ex.1, qo3, .ok res)
    | .goPanic m => (ex.1, qo3, .goPanic m)
    | .err e =>
      if isRetryableError e = false then (ex.1, qo3, .err e)
      else prepareAndExecute ex.1 qo3 stmtStr
  | none => prepareAndExecute w queryOpts stmtStr

/-- Injected retry policy (`N1qlRetryBehavior`; spec §6): pure functions of the
attempt count. -/
structure RetryBehavior where
  canRetry : Nat → Bool
  nextInterval : Nat → Int

/-- Client-side configuration read by `(*Cluster).query`: the client-wide default
timeout `c.n1qlTimeout()` and the injected retry policy (nil = no retries). -/
structure ClusterCfg where
  n1qlTimeout : Int
  retryBehavior : Option RetryBehavior

/-- Result of running the retry loop under a fuel bound.  `fuelOut` records that
the loop was still running when the bound was exhausted (used to witness
non-termination: the source loop has no exit on the cancellation path). -/
inductive LoopResult where
  | ok (r : N1qlResults)
  | err (e : QErr)
  | goPanic (msg : String)
  | fuelOut

/-- Model of the retry loop of `(*Cluster).query` (src/query.go:262-288).
`expired iter` models whether `<-ctx.Done()` is ready at the top of iteration
`iter`; when it is, the source's select case only assigns `err = ctx.Err()` and
loops again — there is no return, so the loop keeps spinning (the trailing
`return res, err` at line 287 is unreachable).  Otherwise one unit of work runs
(ad-hoc execute, or the prepared-statement orchestrator), the mutated options
map is threaded to the next iteration, and `time.Sleep` (state-irrelevant) is
skipped.  `retries` is the source's attempt counter (incremented before each
attempt). -/
def queryLoop (cfg : ClusterCfg) (adHoc : Bool) (expired : Nat → Bool) :
    Nat → World → OptsMap → Nat → Nat → World × OptsMap × LoopResult
  | 0, w, opts, _, _ => (w, opts, .fuelOut)
  | fuel + 1, w, opts, retries, iter =>
    if expired iter then
      queryLoop cfg adHoc expired fuel w opts retries (iter + 1)
    else
      let retries1 := retries + 1
      let step :=
        if adHoc then
          let ex := executeN1qlQuery w opts
          (ex.1, opts, ex.2)
        else doPreparedN1qlQuery w opts
      match step.2.2 with
      | .ok res => (step.1, step.2.1, .ok res)
      | .goPanic m => (step.1, step.2.1, .goPanic m)
      | .err e =>
        if (!isRetryableError e
            || (match cfg.retryBehavior with
                | none => true
                | some b => !b.canRetry retries1)) then
          (step.1, step.2.1, .err e)
        else
          queryLoop cfg adHoc expired fuel step.1 step.2.1 retries1 (iter + 1)

/-- Timeout reconciliation and write-back of `(*Cluster).query`
(src/query.go:235-260): build the options map, read a per-call override from
its "timeout" key via a comma-ok string assertion (a failed assertion leaves
the zero duration, i.e. no override), fail the call on an unparseable override,
keep the override only when `0 < override ∧ override < default`, and write the
effective value back under "timeout".  Returns the final map and the effective
timeout used to derive the cancellation context. -/
def clusterQueryPrep (cfg : ClusterCfg) (statement : String)
    (params : QueryParameters) (opts : QueryOptions) :
    Except QErr (OptsMap × Int) :=
  let queryOpts := createQueryOpts statement params opts
  match queryOpts "timeout" with
  | some (.vStr tmostr) =>
    match parseDuration tmostr with
    | none => .error .parseDurationErr
    | some optTimeout =>
      let timeout :=
        if 0 < optTimeout ∧ optTimeout < cfg.n1qlTimeout then optTimeout
        else cfg.n1qlTimeout
      .ok (mapInsert queryOpts "timeout" (.vStr (durToString timeout)), timeout)
  | _ =>
    .ok (mapInsert queryOpts "timeout" (.vStr (durToString cfg.n1qlTimeout)),
         cfg.n1qlTimeout)

/-- Model of `(*Cluster).query` (src/query.go:232-288): reconcile timeouts, then
run the retry loop on the written-back options map. -/
def clusterQuery (cfg : ClusterCfg) (expired : Nat → Bool) (fuel : Nat)
    (w : World) (statement : String) (params : QueryParameters)
    (opts : QueryOptions) : World × LoopResult :=
  match clusterQueryPrep cfg statement params opts with
  | .error e => (w, .err e)
  | .ok p =>
    let res := queryLoop cfg opts.adHoc expired fuel w p.1 0 0
    (res.1, res.2.2)

/-- Statement of the spec's own words for the effective timeout (§4.1/§8): the
per-call override wins when present, positive and no larger than the client
default; otherwise the client default is used. -/
def effectiveTimeout_spec (deflt : Int) (override : Option Int) : Int :=
  match override with
  | some o => if 0 < o ∧ o ≤ deflt then o else deflt
  | none => deflt

/-- An options map holding just a raw statement. -/
def stmtOpts : OptsMap := mapInsert (fun _ => none) "statement" (.vStr "SELECT 1")

/-- A plan-invalidation server error (code 4050, retryable per §7). -/
def err4050 : N1qlError := { code := 4050, message := "plan not found" }

/-- Wire metrics whose duration strings do not parse (exercising the
degrade-to-zero path). -/
def mStr0 : N1qlResponseMetrics where
  elapsedTime := "bogus"
  executionTime := "bogus"
  resultCount := 0
  resultSize := 0
  mutationCount := 0
  sortCount := 0
  errorCount := 0
  warningCount := 0

/-- A 200 response whose structured error list holds the plan-invalidation error. -/
def resp4050 : HttpResponse where
  statusCode := 200
  endpoint := "ep1"
  body := some
    { requestId := "r1", clientContextId := "c1", results := [],
      errors := [err4050], status := "errors", metrics := mStr0 }

/-- A world whose plan cache already holds a plan for "SELECT 1" and whose
provider will answer the next dispatch with the plan-invalidation error. -/
def cacheHitWorld : World where
  cache := fun t => if t = "SELECT 1" then some { name := "p1", encodedPlan := "e1" } else none
  responses := [.ok resp4050]
  sent := []

/-- A world with an empty cache and an exhausted provider script. -/
def emptyWorld : World where
  cache := fun _ => none
  responses := []
  sent := []

/-- A decoded response with no rows, no errors. -/
def nrClean : N1qlResponse where
  requestId := "r9"
  clientContextId := "c9"
  results := []
  errors := []
  status := "fatal"
  metrics := mStr0

/-- A response with a non-success HTTP status but an empty structured error list. -/
def resp500 : HttpResponse where
  statusCode := 500
  endpoint := "ep9"
  body := some nrClean

/-- Caller parameters carrying a positional value. -/
def params6 : QueryParameters where
  positionalParams := some [42]
  namedParams := none

/-- Caller parameters carrying a named value. -/
def params6n : QueryParameters where
  positionalParams := none
  namedParams := some [("city", 7)]

/-- Query options whose own parameter fields are nil (the natural state when the
caller passes parameters through the `QueryParameters` argument). -/
def opts6 : QueryOptions where
  options := []
  positionalParams := none
  namedParams := none
  adHoc := false

/-- How raw rows unmarshal into the plain target used by single-row reads. -/
def decNat : Row → Option Nat
  | .val n => some n
  | _ => none

/-!  Helper lemmas shared by the claim theorems. -/

/-- Popping a scripted response never touches the sent trace. -/
theorem popResponse_sent (w : World) : (popResponse w).1.sent = w.sent := by
  rcases hw : w.responses with _ | ⟨r, rest⟩ <;> simp [popResponse, hw]

/-- One dispatch against a world with a known head response: the head is
consumed, the body is recorded, and the outcome is its classification. -/
theorem executeN1ql_cons (w : World) (opts : OptsMap) (r : ProviderResp)
    (rest : List ProviderResp) (h : w.responses = r :: rest) :
    executeN1qlQuery w opts =
      ({ cache := w.cache, responses := rest, sent := w.sent ++ [opts] },
       respOutcome r) := by
  obtain ⟨cch, resps, snt⟩ := w
  have h' : resps = r :: rest := h
  subst h'
  rfl

/-- C1: the claim says that a call whose derived cancellation context has already
expired at the top of a retry-loop iteration returns the context's error
immediately with no further attempts.  The source never returns on that path:
the `<-ctx.Done()` select case only assigns `err = ctx.Err()` and iterates
again, so the loop spins forever — for every fuel bound it is still running,
with no unit of work performed and no request dispatched (the world and options
map are returned untouched only because the fuel gauge forces an exit; the
trailing `return res, err` of the source is unreachable). -/
theorem c1_expired_context_never_returns (cfg : ClusterCfg) (adHoc : Bool)
    (fuel : Nat) (w : World) (opts : OptsMap) (retries iter : Nat) :
    queryLoop cfg adHoc (fun _ => true) fuel w opts retries iter
      = (w, opts, .fuelOut) := by
  induction fuel generalizing iter with
  | zero => rfl
  | succ n ih => rw [queryLoop]; simpa using ih (iter + 1)

/-- C2: the claim says a cache-hit execution failing with a plan-invalidation
(retryable) error triggers exactly one PREPARE round trip, a cache overwrite,
and one re-execution.  In the source the cache-hit path first deletes
"statement" from the shared options map, so when the retryable failure falls
through to `prepareN1qlQuery`, the bare assertion `opts["statement"].(string)`
panics on the missing key: the call dies with exactly one dispatch (the failed
cache-hit execute), no PREPARE request, and the cache entry left untouched. -/
theorem c2_invalidation_reprepare_panics :
    (doPreparedN1qlQuery cacheHitWorld stmtOpts).2.2
        = .goPanic "interface conversion: nil is not string"
    ∧ (doPreparedN1qlQuery cacheHitWorld stmtOpts).1.sent.length = 1
    ∧ (doPreparedN1qlQuery cacheHitWorld stmtOpts).1.cache "SELECT 1"
        = some { name := "p1", encodedPlan := "e1" } :=
  ⟨rfl, rfl, rfl⟩

/-- C3: the claim says the prepare step dispatches a request whose statement
field is `"PREPARE " ++ statement`.  The source builds that request in
`prepOpts` but then dispatches `opts` (src/query.go:362), so the wire body is
the untouched options map carrying the raw statement — which differs from the
required `PREPARE`-prefixed text. -/
theorem c3_prepare_sends_raw_statement :
    (prepareN1qlQuery emptyWorld stmtOpts).1.sent = [stmtOpts]
    ∧ stmtOpts "statement" = some (.vStr "SELECT 1")
    ∧ "SELECT 1" ≠ "PREPARE SELECT 1" :=
  ⟨rfl, rfl, by decide⟩

/-- C6: the claim says the outgoing map carries the caller-supplied positional
values under "args" (resp. named values under `$name`).  The source gates the
branch on `params.*` but reads the values from `opts.*`: with positional
parameters supplied through the `QueryParameters` argument and nil fields on
`QueryOptions`, "args" is bound to the nil slice instead of the caller's
values, and a caller-supplied named parameter never appears under `$name`. -/
theorem c6_params_read_from_wrong_struct :
    params6.positionalParams = some [42]
    ∧ createQueryOpts "SELECT 1" params6 opts6 "args" = some GoVal.vNilSlice
    ∧ GoVal.vNilSlice ≠ GoVal.vList [42]
    ∧ params6n.namedParams = some [("city", 7)]
    ∧ createQueryOpts "SELECT 1" params6n opts6 "$city" = none :=
  ⟨rfl, rfl, by decide, rfl, rfl⟩

/-- C9: the claim says a non-200 response with an empty structured error list is
surfaced as an error.  The source's `if resp.StatusCode != 200` branch is empty
(its error return is commented out), so such a response — here status 500 —
yields a successful result cursor. -/
theorem c9_non200_yields_success_cursor :
    resp500.statusCode = 500
    ∧ nrClean.errors = []
    ∧ respOutcome (.ok resp500) = .ok (mkN1qlResults "ep9" nrClean) :=
  ⟨rfl, rfl, rfl⟩

/-- One non-expired loop iteration whose ad-hoc unit of work fails with a
retryable error the policy still allows: the loop sleeps and goes round again
with the attempt counter bumped. -/
theorem queryLoop_step_retry (cfg : ClusterCfg) (b : RetryBehavior)
    (expired : Nat → Bool) (fuel : Nat) (w : World) (opts : OptsMap)
    (retries iter : Nat) (r : ProviderResp) (rest : List ProviderResp) (e : QErr)
    (hcfg : cfg.retryBehavior = some b)
    (hexp : expired iter = false)
    (hw : w.responses = r :: rest)
    (hr : respOutcome r = .err e)
    (hret : isRetryableError e = true)
    (hcan : b.canRetry (retries + 1) = true) :
    queryLoop cfg true expired (fuel + 1) w opts retries iter
      = queryLoop cfg true expired fuel
          { cache := w.cache, responses := rest, sent := w.sent ++ [opts] }
          opts (retries + 1) (iter + 1) := by
  rw [queryLoop]
  simp [hexp, executeN1ql_cons w opts r rest hw, hr, hret, hcfg, hcan]

/-- One non-expired loop iteration that fails with no retry policy injected:
the error is surfaced at once. -/
theorem queryLoop_step_stop_nopolicy (cfg : ClusterCfg) (expired : Nat → Bool)
    (fuel : Nat) (w : World) (opts : OptsMap) (retries iter : Nat)
    (r : ProviderResp) (rest : List ProviderResp) (e : QErr)
    (hcfg : cfg.retryBehavior = none)
    (hexp : expired iter = false)
    (hw : w.responses = r :: rest)
    (hr : respOutcome r = .err e) :
    queryLoop cfg true expired (fuel + 1) w opts retries iter
      = ({ cache := w.cache, responses := rest, sent := w.sent ++ [opts] },
         opts, .err e) := by
  rw [queryLoop]
  simp [hexp, executeN1ql_cons w opts r rest hw, hr, hcfg]

/-- One non-expired loop iteration that fails after the policy denies another
attempt: the error is surfaced. -/
theorem queryLoop_step_stop_denied (cfg : ClusterCfg) (b : RetryBehavior)
    (expired : Nat → Bool) (fuel : Nat) (w : World) (opts : OptsMap)
    (retries iter : Nat) (r : ProviderResp) (rest : List ProviderResp) (e : QErr)
    (hcfg : cfg.retryBehavior = some b)
    (hexp : expired iter = false)
    (hw : w.responses = r :: rest)
    (hr : respOutcome r = .err e)
    (hcan : b.canRetry (retries + 1) = false) :
    queryLoop cfg true expired (fuel + 1) w opts retries iter
      = ({ cache := w.cache, responses := rest, sent := w.sent ++ [opts] },
         opts, .err e) := by
  rw [queryLoop]
  simp [hexp, executeN1ql_cons w opts r rest hw, hr, hcfg, hcan]

/-- C5: with a retry policy allowing retries exactly while the attempt count is
at most 2, an always-retryably-failing ad-hoc unit of work is attempted exactly
3 times (three requests dispatched, three scripted responses consumed) and the
third attempt's error is surfaced; with no policy injected (`nil`), exactly one
attempt is made and its error is surfaced. -/
theorem c5_retry_counts (b : RetryBehavior)
    (hb : ∀ n, b.canRetry n = decide (n ≤ 2))
    (d : Int) (cch : String → Option n1qlCache) (snt : List OptsMap)
    (r1 r2 r3 : ProviderResp) (rest : List ProviderResp) (e1 e2 e3 : QErr)
    (h1 : respOutcome r1 = .err e1) (h2 : respOutcome r2 = .err e2)
    (h3 : respOutcome r3 = .err e3)
    (g1 : isRetryableError e1 = true) (g2 : isRetryableError e2 = true)
    (g3 : isRetryableError e3 = true)
    (opts : OptsMap) (n : Nat) :
    queryLoop { n1qlTimeout := d, retryBehavior := some b } true (fun _ => false)
        (n + 3) { cache := cch, responses := r1 :: r2 :: r3 :: rest, sent := snt }
        opts 0 0
      = ({ cache := cch, responses := rest, sent := snt ++ [opts, opts, opts] },
         opts, .err e3)
    ∧ (∀ (r : ProviderResp) (rest' : List ProviderResp) (e : QErr) (m : Nat),
        respOutcome r = .err e →
        queryLoop { n1qlTimeout := d, retryBehavior := none } true (fun _ => false)
            (m + 1) { cache := cch, responses := r :: rest', sent := snt } opts 0 0
          = ({ cache := cch, responses := rest', sent := snt ++ [opts] },
             opts, .err e)) := by
  constructor
  · rw [queryLoop_step_retry { n1qlTimeout := d, retryBehavior := some b } b
        (fun _ => false) (n + 2)
        { cache := cch, responses := r1 :: r2 :: r3 :: rest, sent := snt }
        opts 0 0 r1 (r2 :: r3 :: rest) e1 rfl rfl rfl h1 g1 (by rw [hb]; rfl)]
    rw [queryLoop_step_retry { n1qlTimeout := d, retryBehavior := some b } b
        (fun _ => false) (n + 1)
        { cache := ({ cache := cch, responses := r1 :: r2 :: r3 :: rest, sent := snt } : World).cache,
          responses := r2 :: r3 :: rest,
          sent := ({ cache := cch, responses := r1 :: r2 :: r3 :: rest, sent := snt } : World).sent ++ [opts] }
        opts (0 + 1) (0 + 1) r2 (r3 :: rest) e2 rfl rfl rfl h2 g2 (by rw [hb]; rfl)]
    rw [queryLoop_step_stop_denied { n1qlTimeout := d, retryBehavior := some b } b
        (fun _ => false) n _ opts (0 + 1 + 1) (0 + 1 + 1) r3 rest e3 rfl rfl rfl h3
        (by rw [hb]; rfl)]
    simp [List.append_assoc]
  · intro r rest' e m hr
    rw [queryLoop_step_stop_nopolicy { n1qlTimeout := d, retryBehavior := none }
        (fun _ => false) m { cache := cch, responses := r :: rest', sent := snt }
        opts 0 0 r rest' e rfl rfl rfl hr]

/-- The always-deny-after-2 retry policy of claim C5's scenario. -/
def b5 : RetryBehavior where
  canRetry := fun n => decide (n ≤ 2)
  nextInterval := fun _ => 0

/-- Witness for C5 at concrete inputs: three scripted plan-invalidation failures
under the allow-2-retries policy give three attempts and surface the third
error; with no policy one scripted failure gives one attempt. -/
theorem c5_witness :
    queryLoop { n1qlTimeout := 75, retryBehavior := some b5 } true (fun _ => false) 3
        { cache := fun _ => none,
          responses := [.ok resp4050, .ok resp4050, .ok resp4050], sent := [] }
        stmtOpts 0 0
      = ({ cache := fun _ => none, responses := [],
           sent := [stmtOpts, stmtOpts, stmtOpts] },
         stmtOpts, .err (.multiErr [err4050]))
    ∧ queryLoop { n1qlTimeout := 75, retryBehavior := none } true (fun _ => false) 1
        { cache := fun _ => none, responses := [.ok resp4050], sent := [] }
        stmtOpts 0 0
      = ({ cache := fun _ => none, responses := [], sent := [stmtOpts] },
         stmtOpts, .err (.multiErr [err4050])) := by
  have h := c5_retry_counts b5 (fun n => rfl) 75 (fun _ => none) []
    (.ok resp4050) (.ok resp4050) (.ok resp4050) []
    (.multiErr [err4050]) (.multiErr [err4050]) (.multiErr [err4050])
    rfl rfl rfl rfl rfl rfl stmtOpts 0
  exact ⟨h.1, h.2 (.ok resp4050) [] (.multiErr [err4050]) 0 rfl⟩

/-- Equivalence of the source's strict-inequality override acceptance
(`0 < o ∧ o < default`) with the spec's `0 < o ∧ o ≤ default` wording: at the
only point where they differ (`o = default`) both produce the same value. -/
theorem reconcile_eq_spec (d o : Int) :
    (if 0 < o ∧ o < d then o else d) = effectiveTimeout_spec d (some o) := by
  simp only [effectiveTimeout_spec]
  split_ifs <;> omega

/-- C4: the effective timeout is the per-call override exactly when a parseable
override is present, positive and no larger than the client default, and the
client default otherwise (override absent or not a string); in both cases the
effective value is written back into the outgoing options map under "timeout".
A present-but-unparseable override fails the whole call before any timeout is
chosen, so it carries no effective timeout and falls outside the claim. -/
theorem c4_effective_timeout (cfg : ClusterCfg) (statement : String)
    (params : QueryParameters) (opts : QueryOptions) :
    (∀ s o, createQueryOpts statement params opts "timeout" = some (.vStr s) →
       parseDuration s = some o →
       clusterQueryPrep cfg statement params opts =
         .ok (mapInsert (createQueryOpts statement params opts) "timeout"
                (.vStr (durToString (effectiveTimeout_spec cfg.n1qlTimeout (some o)))),
              effectiveTimeout_spec cfg.n1qlTimeout (some o)))
    ∧ ((∀ s, createQueryOpts statement params opts "timeout" ≠ some (.vStr s)) →
       clusterQueryPrep cfg statement params opts =
         .ok (mapInsert (createQueryOpts statement params opts) "timeout"
                (.vStr (durToString (effectiveTimeout_spec cfg.n1qlTimeout none))),
              effectiveTimeout_spec cfg.n1qlTimeout none)) := by
  constructor
  · intro s o hs ho
    simp only [clusterQueryPrep, hs, ho, reconcile_eq_spec]
  · intro hno
    simp only [clusterQueryPrep]
    rcases hv : createQueryOpts statement params opts "timeout" with _ | v
    · simp [hv, effectiveTimeout_spec]
    · cases v with
      | vStr s => exact absurd hv (hno s)
      | vList xs => simp [hv, effectiveTimeout_spec]
      | vNilSlice => simp [hv, effectiveTimeout_spec]
      | vOpaque m => simp [hv, effectiveTimeout_spec]

/-- Client configuration with a 75ns default timeout. -/
def cfg4 : ClusterCfg where
  n1qlTimeout := 75
  retryBehavior := none

/-- Caller parameters with no positional and no named values. -/
def params0 : QueryParameters where
  positionalParams := none
  namedParams := none

/-- Query options carrying a per-call timeout override of 30ns. -/
def opts4 : QueryOptions where
  options := [("timeout", GoVal.vStr "30ns")]
  positionalParams := none
  namedParams := none
  adHoc := true

/-- Witness for C4 at concrete inputs: a 30ns override against a 75ns default is
kept and written back. -/
theorem c4_witness :
    clusterQueryPrep cfg4 "SELECT 1" params0 opts4 =
      .ok (mapInsert (createQueryOpts "SELECT 1" params0 opts4) "timeout"
             (.vStr (durToString (effectiveTimeout_spec 75 (some 30)))),
           effectiveTimeout_spec 75 (some 30)) :=
  (c4_effective_timeout cfg4 "SELECT 1" params0 opts4).1 "30ns" 30 rfl rfl

/-- Fully consuming the row stream of an error-free cursor closes it and leaves
the metadata fields untouched. -/
theorem drain_closes (fuel : Nat) (r : N1qlResults) (herr : r.err = none)
    (h1 : (r.rows.length : Int) - (r.index + 1) < fuel)
    (h2 : r.index + 1 ≤ (r.rows.length : Int)) :
    (drain fuel r).1.closed = true
    ∧ (drain fuel r).1.requestId = r.requestId
    ∧ (drain fuel r).1.clientContextId = r.clientContextId
    ∧ (drain fuel r).1.metrics = r.metrics := by
  induction fuel generalizing r with
  | zero => exfalso; omega
  | succ n ih =>
    by_cases hc : (r.rows.length : Int) ≤ r.index + 1
    · simp [drain, NextBytes, herr, hc]
    · have hnb : NextBytes r = ({ r with index := r.index + 1 },
          some ((r.rows.get? (r.index + 1).toNat).getD Row.bad)) := by
        simp [NextBytes, herr, hc]
      have hrec := ih { r with index := r.index + 1 } herr (by simp; omega) (by simp; omega)
      simp only [drain, hnb]
      exact hrec

/-- C7: calling `RequestId`, `ClientContextId` or `Metrics` on a cursor that is
not yet closed panics; once the row sequence has been fully consumed (repeated
`NextBytes` until nil) the cursor is closed and the three accessors return the
decoded response's request id, client context id and parsed metrics. -/
theorem c7_metadata_access_gated :
    (∀ r : N1qlResults, r.closed = false →
       RequestId r = .goPanic metaPanicMsg
       ∧ ClientContextId r = .goPanic metaPanicMsg
       ∧ Metrics r = .goPanic metaPanicMsg)
    ∧ (∀ (ep : String) (nr : N1qlResponse) (fuel : Nat),
        nr.results.length < fuel →
        (drain fuel (mkN1qlResults ep nr)).1.closed = true
        ∧ RequestId (drain fuel (mkN1qlResults ep nr)).1 = .ok nr.requestId
        ∧ ClientContextId (drain fuel (mkN1qlResults ep nr)).1
            = .ok nr.clientContextId
        ∧ Metrics (drain fuel (mkN1qlResults ep nr)).1
            = .ok (mkMetrics nr.metrics)) := by
  constructor
  · intro r h
    refine ⟨?_, ?_, ?_⟩ <;> simp [RequestId, ClientContextId, Metrics, h]
  · intro ep nr fuel hf
    have h := drain_closes fuel (mkN1qlResults ep nr) rfl
      (by simp [mkN1qlResults]; omega) (by simp [mkN1qlResults])
    refine ⟨h.1, ?_, ?_, ?_⟩
    · simp only [RequestId, h.1, h.2.1]
      simp [mkN1qlResults]
    · simp only [ClientContextId, h.1, h.2.2.1]
      simp [mkN1qlResults]
    · simp only [Metrics, h.1, h.2.2.2]
      simp [mkN1qlResults]

/-- A three-row response used to witness C7. -/
def nr7 : N1qlResponse where
  requestId := "rid7"
  clientContextId := "cid7"
  results := [.val 1, .val 2, .val 3]
  errors := []
  status := "success"
  metrics := mStr0

/-- Witness for C7 at a concrete three-row response: accessors panic on the
fresh cursor and return the metadata after the stream is drained. -/
theorem c7_witness :
    (RequestId (mkN1qlResults "ep7" nr7) = .goPanic metaPanicMsg
     ∧ ClientContextId (mkN1qlResults "ep7" nr7) = .goPanic metaPanicMsg
     ∧ Metrics (mkN1qlResults "ep7" nr7) = .goPanic metaPanicMsg)
    ∧ ((drain 4 (mkN1qlResults "ep7" nr7)).1.closed = true
       ∧ RequestId (drain 4 (mkN1qlResults "ep7" nr7)).1 = .ok "rid7"
       ∧ ClientContextId (drain 4 (mkN1qlResults "ep7" nr7)).1 = .ok "cid7"
       ∧ Metrics (drain 4 (mkN1qlResults "ep7" nr7)).1
           = .ok (mkMetrics mStr0)) :=
  ⟨c7_metadata_access_gated.1 (mkN1qlResults "ep7" nr7) rfl,
   c7_metadata_access_gated.2 "ep7" nr7 4 (by decide)⟩

/-- C8: whenever the decoded response carries a non-empty structured error list —
whatever the HTTP status, including 200 — the dispatcher returns no cursor but a
single aggregate `n1qlMultiError` holding the full list, whose `Code()` and
`Error()` are the first error's code and rendering. -/
theorem c8_error_list_aggregated (w : World) (opts : OptsMap)
    (resp : HttpResponse) (rest : List ProviderResp) (nr : N1qlResponse)
    (e0 : N1qlError) (es : List N1qlError)
    (hw : w.responses = .ok resp :: rest) (hb : resp.body = some nr)
    (he : nr.errors = e0 :: es) :
    (executeN1qlQuery w opts).2 = .err (.multiErr (e0 :: es))
    ∧ n1qlMultiError_Code (e0 :: es) = e0.code
    ∧ n1qlMultiError_Error (e0 :: es) = n1qlError_Error e0 := by
  refine ⟨?_, rfl, rfl⟩
  rw [executeN1ql_cons w opts (.ok resp) rest hw]
  simp [respOutcome, hb, he]

/-- Witness for C8 at a concrete 200 response carrying one structured error. -/
theorem c8_witness :
    (executeN1qlQuery
        { cache := fun _ => none, responses := [.ok resp4050], sent := [] }
        stmtOpts).2
      = .err (.multiErr [err4050])
    ∧ n1qlMultiError_Code [err4050] = 4050
    ∧ n1qlMultiError_Error [err4050] = n1qlError_Error err4050 :=
  c8_error_list_aggregated
    { cache := fun _ => none, responses := [.ok resp4050], sent := [] }
    stmtOpts resp4050 [] _ err4050 [] rfl rfl rfl

/-- C10: `One` over a zero-row response returns no error and performs no write
through the caller's pointer (the state is the fresh cursor merely closed), a
successful single-row `One` also returns no error, and on every input `One`
leaves the cursor closed — so the returned error alone cannot separate the
empty case from the one-row case. -/
theorem c10_one_semantics :
    (∀ (ep : String) (nr : N1qlResponse) (dec : Row → Option Nat),
       nr.results = [] →
       One dec (mkN1qlResults ep nr)
         = ({ mkN1qlResults ep nr with closed := true }, none, none))
    ∧ (∀ (ep : String) (nr : N1qlResponse) (dec : Row → Option Nat)
        (row : Row) (v : Nat),
        nr.results = [row] → dec row = some v →
        (One dec (mkN1qlResults ep nr)).2.1 = none
        ∧ (One dec (mkN1qlResults ep nr)).2.2 = some v
        ∧ (One dec (mkN1qlResults ep nr)).1.closed = true)
    ∧ (∀ (r : N1qlResults) (dec : Row → Option Nat),
        (One dec r).1.closed = true) := by
  refine ⟨?_, ?_, ?_⟩
  · intro ep nr dec h
    simp [One, Next, NextBytes, Close, mkN1qlResults, h]
  · intro ep nr dec row v hrows hdec
    refine ⟨?_, ?_, ?_⟩ <;>
      simp [One, Next, NextBytes, Close, mkN1qlResults, hrows, hdec]
  · intro r dec
    simp only [One, Close]
    split
    · split <;> rfl
    · rfl

/-- A one-row response used to witness C10. -/
def nr10 : N1qlResponse where
  requestId := "r10"
  clientContextId := "c10"
  results := [.val 5]
  errors := []
  status := "success"
  metrics := mStr0

/-- Witness for C10 at concrete inputs: zero rows give a closed cursor, no
error and no write; one decodable row gives the same nil error with the value
written; an arbitrary concrete cursor ends closed. -/
theorem c10_witness :
    One decNat (mkN1qlResults "ep10" nrClean)
      = ({ mkN1qlResults "ep10" nrClean with closed := true }, none, none)
    ∧ ((One decNat (mkN1qlResults "ep10" nr10)).2.1 = none
       ∧ (One decNat (mkN1qlResults "ep10" nr10)).2.2 = some 5
       ∧ (One decNat (mkN1qlResults "ep10" nr10)).1.closed = true)
    ∧ (One decNat (mkN1qlResults "ep10" nr7)).1.closed = true :=
  ⟨c10_one_semantics.1 "ep10" nrClean decNat rfl,
   c10_one_semantics.2.1 "ep10" nr10 decNat (.val 5) 5 rfl rfl,
   c10_one_semantics.2.2 (mkN1qlResults "ep10" nr7) decNat⟩

end Gocb
